import Mathlib

/-!
# ksched_init (iokernel/ksched.c)

A shallow embedding of `ksched_init`, the routine that opens `/dev/ksched`,
maps the region shared with the kernel module and primes the per-core
generation numbers.

* The C globals (`ksched_fd`, `ksched_count`, `ksched_shm`, `ksched_set`,
  `ksched_gens`), libc's `errno` and the content of the shared region form
  the state `KState`.
* The two system calls are answered by an environment `Env`: for the
  arguments it is called with, each call yields its return value and the
  value `errno` holds afterwards.
* Every externally visible step (system call, load of `last_gen`, store to
  `ksched_gens`, call of `ksched_idle_hint`) is appended to a trace.
* `NCPU`, `sizeof(struct ksched_shm_cpu)` and the body of
  `ksched_idle_hint` come from `ksched.h`, which is not part of the sources;
  they are parameters of the embedding.
* Memory is read sequentially: the kernel module does not write the region
  while `ksched_init` runs.
-/

namespace Ksched

/-! ## Constants of the system headers (Linux, LP64) -/

/-- The flag O_RDWR of fcntl.h. -/
def O_RDWR : Nat := 2

/-- The protection bit PROT_READ of sys/mman.h. -/
def PROT_READ : Nat := 1

/-- The protection bit PROT_WRITE of sys/mman.h. -/
def PROT_WRITE : Nat := 2

/-- The flag MAP_SHARED of sys/mman.h. -/
def MAP_SHARED : Nat := 1

/-- The flag MAP_PRIVATE of sys/mman.h. -/
def MAP_PRIVATE : Nat := 2

/-- The pointer MAP_FAILED, `(void *) -1`, as an address of 64 bits. -/
def MAP_FAILED : Nat := 2 ^ 64 - 1

/-- The null pointer. -/
def NULL : Nat := 0

/-- The width of `size_t`: the length passed to mmap is computed modulo this. -/
def SIZE_MOD : Nat := 2 ^ 64

/-! ## Data model -/

/-- Modelled from the spec: `struct ksched_shm_cpu` is declared in ksched.h,
which is absent. The source names its field `last_gen` (an unsigned integer,
the last committed generation, written by the kernel side); §3 of the spec
adds command fields written by user space, kept here as one word, and §4.2
has user space write the generation it issues into the block (`gen`). -/
structure ksched_shm_cpu where
  last_gen : Nat
  command : Nat
  gen : Nat
  deriving DecidableEq, Repr

/-- The externally visible steps a run can take. `sys_close` and
`sys_munmap` are the release calls of the same interface; `ksched_init`
never issues them. -/
inductive Event where
  | sys_open (path : String) (flags : Nat)
  | sys_mmap (addr len prot flags : Nat) (fd : Int) (off : Nat)
  | sys_close (fd : Int)
  | sys_munmap (addr len : Nat)
  | load_last_gen (core val : Nat)
  | store_gen (core val : Nat)
  | idle_hint (core hint : Nat)
  deriving DecidableEq, Repr

/-- The environment answering the system calls. Each answer is a pair: the
value the call returns and the value of `errno` after the call. -/
structure Env where
  sys_open : String → Nat → Int × Int
  sys_mmap : Nat → Nat → Nat → Nat → Int → Nat → Nat × Int

/-- The globals of ksched.c, `errno`, and the content of the region that the
kernel module shares (`shm i` is the control block of core `i`, the object
`ksched_shm[i]` once the region is mapped). `ksched_gens` and `last_gen`
are both `unsigned int`, so a store of a loaded `last_gen` keeps its value.
`errno` is an `int`; the error numbers a call leaves are far from the
bounds of `int`, so `-errno` is computed in the integers. -/
structure KState where
  errno : Int
  ksched_fd : Int
  ksched_count : Int
  ksched_shm : Nat
  ksched_set : Nat
  ksched_gens : Nat → Nat
  shm : Nat → ksched_shm_cpu

/-- Modelled from the spec: the part of the state that `ksched_idle_hint`
(ksched.h, absent) works on. The idle hint informs the control block of a
core (§2, §4.2); the hint interface of §4.2 also works on the generation
counters. The handle, the mapping pointer, the pending count and the pending
set are out of its reach. -/
structure HintState where
  gens : Nat → Nat
  shm : Nat → ksched_shm_cpu

/-- The type of `ksched_idle_hint(core, hint)`. Its body is in ksched.h,
which is absent, so it is a parameter of `ksched_init`. -/
abbrev IdleHint := Nat → Nat → HintState → HintState

/-- What a call of `ksched_init` yields: the returned `int`, the state it
leaves and the steps it took, in order. -/
structure Outcome where
  ret : Int
  state : KState
  trace : List Event

/-! ## The code -/

/-- One iteration of the loop of `ksched_init`, for core `i`:
`ksched_gens[i] = load_acquire(&ksched_shm[i].last_gen); ksched_idle_hint(i, 0);`. -/
def init_body (hint : IdleHint) (st : KState × List Event) (i : Nat) :
    KState × List Event :=
  let s := st.1
  let v := (s.shm i).last_gen
  let s1 : KState := { s with ksched_gens := fun j => if j = i then v else s.ksched_gens j }
  let h := hint i 0 ⟨s1.ksched_gens, s1.shm⟩
  ({ s1 with ksched_gens := h.gens, shm := h.shm },
   st.2 ++ [Event.load_last_gen i v, Event.store_gen i v, Event.idle_hint i 0])

/-- The loop `for (i = 0; i < NCPU; i++)` of `ksched_init`, run for the
cores `0, 1, ..., n - 1`. -/
def init_loop (hint : IdleHint) (n : Nat) (st : KState × List Event) :
    KState × List Event :=
  (List.range n).foldl (init_body hint) st

/-- The function `ksched_init`. `NCPU` is the number of cores and `sz` is
`sizeof(struct ksched_shm_cpu)`. -/
def ksched_init (env : Env) (hint : IdleHint) (NCPU sz : Nat) (s : KState) : Outcome :=
  -- first open the file descriptor
  let o := env.sys_open "/dev/ksched" O_RDWR
  let s1 : KState := { s with ksched_fd := o.1, errno := o.2 }
  let t1 := [Event.sys_open "/dev/ksched" O_RDWR]
  if s1.ksched_fd < 0 then
    ⟨-s1.errno, s1, t1⟩
  else
    -- then map the shared memory region with the kernel
    let len := (sz * NCPU) % SIZE_MOD
    let m := env.sys_mmap NULL len (PROT_READ ||| PROT_WRITE) MAP_SHARED s1.ksched_fd 0
    let s2 : KState := { s1 with errno := m.2 }
    let t2 := t1 ++ [Event.sys_mmap NULL len (PROT_READ ||| PROT_WRITE) MAP_SHARED s1.ksched_fd 0]
    if m.1 = MAP_FAILED then
      ⟨-s2.errno, s2, t2⟩
    else
      -- then set up the generation numbers, core by core
      let s3 : KState := { s2 with ksched_shm := m.1 }
      let r := init_loop hint NCPU (s3, t2)
      ⟨0, r.1, r.2⟩

/-- The steps of one loop iteration for core `i` when the load yields `v`:
the load of `last_gen`, the store to `ksched_gens[i]`, the idle hint with
parameter 0. -/
def core_events (i v : Nat) : List Event :=
  [Event.load_last_gen i v, Event.store_gen i v, Event.idle_hint i 0]

/-- The value that the load of iteration `i` yields when the loop starts in
`st`: the field `last_gen` of block `i` in the state left by the iterations
`0, ..., i - 1`. -/
def gen_read (hint : IdleHint) (st : KState × List Event) (i : Nat) : Nat :=
  (((init_loop hint i st).1).shm i).last_gen

/-- The per-core effects as the spec words them (§4.1), for the cores
`0, 1, ..., n - 1` in ascending order: read `last_gen` of the core, store it
as the generation counter of the core, then issue the idle hint for the core
with parameter 0. The result is what these `n` rounds make of the generation
counters and the control blocks. -/
def per_core_effects (hint : IdleHint) : Nat → HintState → HintState
  | 0, hs => hs
  | n + 1, hs =>
    let before := per_core_effects hint n hs
    let primed : HintState :=
      ⟨fun j => if j = n then (before.shm n).last_gen else before.gens j, before.shm⟩
    hint n 0 primed

/-- The value that the spec-worded rounds read for core `i`: `last_gen` of
block `i` after the rounds of the cores below `i`. -/
def spec_read (hint : IdleHint) (hs : HintState) (i : Nat) : Nat :=
  ((per_core_effects hint i hs).shm i).last_gen

/-- The answer of the environment to the call
`open("/dev/ksched", O_RDWR)` of `ksched_init`: the returned handle and
`errno` after the call. -/
def open_answer (env : Env) : Int × Int :=
  env.sys_open "/dev/ksched" O_RDWR

/-- The answer of the environment to the mmap call of `ksched_init`, made on
the handle that open returned: the returned address and `errno` after the
call. -/
def mmap_answer (env : Env) (NCPU sz : Nat) : Nat × Int :=
  env.sys_mmap NULL ((sz * NCPU) % SIZE_MOD) (PROT_READ ||| PROT_WRITE) MAP_SHARED
    (open_answer env).1 0

/-- The event of the open call of `ksched_init`. -/
def open_event : Event :=
  Event.sys_open "/dev/ksched" O_RDWR

/-- The event of the mmap call of `ksched_init`. -/
def mmap_event (env : Env) (NCPU sz : Nat) : Event :=
  Event.sys_mmap NULL ((sz * NCPU) % SIZE_MOD) (PROT_READ ||| PROT_WRITE) MAP_SHARED
    (open_answer env).1 0

/-- The state in which the loop of `ksched_init` starts when both system
calls succeed. -/
def loop_start (env : Env) (NCPU sz : Nat) (s : KState) : KState × List Event :=
  ({ s with ksched_fd := (open_answer env).1, errno := (mmap_answer env NCPU sz).2,
            ksched_shm := (mmap_answer env NCPU sz).1 },
   [open_event, mmap_event env NCPU sz])

/-- Whether an event is a mapping request. -/
def Event.is_mmap : Event → Bool
  | Event.sys_mmap _ _ _ _ _ _ => true
  | _ => false

/-- Whether an event releases a resource (close or munmap). -/
def Event.is_release : Event → Bool
  | Event.sys_close _ => true
  | Event.sys_munmap _ _ => true
  | _ => false

/-! ## Concrete environments and states -/

/-- An environment in which both calls succeed: handle 3, address 4096. -/
def env_ok : Env :=
  { sys_open := fun _ _ => (3, 0), sys_mmap := fun _ _ _ _ _ _ => (4096, 0) }

/-- A later environment in which both calls succeed again: handle 4,
address 8192. -/
def env_again : Env :=
  { sys_open := fun _ _ => (4, 0), sys_mmap := fun _ _ _ _ _ _ => (8192, 0) }

/-- An environment in which the device cannot be opened (ENOENT). -/
def env_no_device : Env :=
  { sys_open := fun _ _ => (-1, 2), sys_mmap := fun _ _ _ _ _ _ => (4096, 0) }

/-- An environment in which the device opens with handle 3 and the mapping
fails (ENOMEM). -/
def env_no_map : Env :=
  { sys_open := fun _ _ => (3, 0), sys_mmap := fun _ _ _ _ _ _ => (MAP_FAILED, 12) }

/-- An idle hint that writes its parameter into the command word of the
block of the core and nothing else. -/
def hint_command : IdleHint :=
  fun core h v =>
    ⟨v.gens, fun j => if j = core then { v.shm j with command := h } else v.shm j⟩

/-- An idle hint that records its call in the command word of the block of
its core: the generation counter of the core at the time of the call, the
parameter, and a mark that the call took place. -/
def hint_record : IdleHint :=
  fun core h v =>
    ⟨v.gens, fun j => if j = core then
        { v.shm j with command := 100 * v.gens core + 10 * h + 1 }
      else v.shm j⟩

/-- A state before the first call: zeroed globals, and a shared region in
which core `i` has committed generation `i + 5`. -/
def state0 : KState :=
  { errno := 0, ksched_fd := 0, ksched_count := 0, ksched_shm := NULL, ksched_set := 0,
    ksched_gens := fun _ => 0, shm := fun i => ⟨i + 5, 9, i + 5⟩ }

/-! ## The loop -/

theorem init_loop_zero (hint : IdleHint) (st : KState × List Event) :
    init_loop hint 0 st = st := by
  simp [init_loop]

theorem init_loop_succ (hint : IdleHint) (n : Nat) (st : KState × List Event) :
    init_loop hint (n + 1) st = init_body hint (init_loop hint n st) n := by
  simp [init_loop, List.range_succ, List.foldl_append]

/-- The loop writes none of `errno`, `ksched_fd`, `ksched_count`,
`ksched_shm` and `ksched_set`. -/
theorem init_loop_frame (hint : IdleHint) (n : Nat) (st : KState × List Event) :
    (init_loop hint n st).1.errno = st.1.errno ∧
    (init_loop hint n st).1.ksched_fd = st.1.ksched_fd ∧
    (init_loop hint n st).1.ksched_count = st.1.ksched_count ∧
    (init_loop hint n st).1.ksched_shm = st.1.ksched_shm ∧
    (init_loop hint n st).1.ksched_set = st.1.ksched_set := by
  induction n with
  | zero => simp [init_loop_zero]
  | succ k ih =>
    rw [init_loop_succ]
    simpa [init_body] using ih

/-- The trace of the loop: the steps of core 0, then those of core 1, and so
on, each with the value its load yielded. -/
theorem init_loop_trace (hint : IdleHint) (n : Nat) (st : KState × List Event) :
    (init_loop hint n st).2 =
      st.2 ++ (List.range n).flatMap (fun i => core_events i (gen_read hint st i)) := by
  induction n with
  | zero => simp [init_loop_zero]
  | succ k ih =>
    rw [init_loop_succ, List.range_succ, List.flatMap_append]
    simp [init_body, ih, core_events, gen_read, List.flatMap]

/-- The loop does to the generation numbers and the control blocks what the
spec-worded rounds do. -/
theorem init_loop_effects (hint : IdleHint) (n : Nat) (st : KState × List Event) :
    (⟨(init_loop hint n st).1.ksched_gens, (init_loop hint n st).1.shm⟩ : HintState) =
      per_core_effects hint n ⟨st.1.ksched_gens, st.1.shm⟩ := by
  induction n with
  | zero => simp [init_loop_zero, per_core_effects]
  | succ k ih =>
    rw [init_loop_succ]
    simp only [init_body, per_core_effects, ← ih]

/-- The value the loop loads for core `i` is the value the spec-worded
rounds read for it. -/
theorem gen_read_eq_spec_read (hint : IdleHint) (st : KState × List Event) (i : Nat) :
    gen_read hint st i = spec_read hint ⟨st.1.ksched_gens, st.1.shm⟩ i := by
  simp only [gen_read, spec_read, ← init_loop_effects]

/-- The outcome of `ksched_init` when the device cannot be opened. -/
theorem ksched_init_open_failed (env : Env) (hint : IdleHint) (NCPU sz : Nat) (s : KState)
    (h : (open_answer env).1 < 0) :
    ksched_init env hint NCPU sz s =
      ⟨-(open_answer env).2,
       { s with ksched_fd := (open_answer env).1, errno := (open_answer env).2 },
       [open_event]⟩ := by
  simp only [open_answer] at h
  simp [ksched_init, h, open_answer, open_event]

/-- The outcome of `ksched_init` when the device opens and the mapping
fails. -/
theorem ksched_init_mmap_failed (env : Env) (hint : IdleHint) (NCPU sz : Nat) (s : KState)
    (ho : 0 ≤ (open_answer env).1) (hm : (mmap_answer env NCPU sz).1 = MAP_FAILED) :
    ksched_init env hint NCPU sz s =
      ⟨-(mmap_answer env NCPU sz).2,
       { s with ksched_fd := (open_answer env).1, errno := (mmap_answer env NCPU sz).2 },
       [open_event, mmap_event env NCPU sz]⟩ := by
  simp only [open_answer, mmap_answer] at ho hm
  have ho' : ¬ (env.sys_open "/dev/ksched" O_RDWR).1 < 0 := not_lt.mpr ho
  simp [ksched_init, ho', hm, open_answer, mmap_answer, open_event, mmap_event]

/-- The outcome of `ksched_init` when both calls succeed: 0, and the state
and trace the loop leaves. -/
theorem ksched_init_ok (env : Env) (hint : IdleHint) (NCPU sz : Nat) (s : KState)
    (ho : 0 ≤ (open_answer env).1) (hm : (mmap_answer env NCPU sz).1 ≠ MAP_FAILED) :
    ksched_init env hint NCPU sz s =
      ⟨0, (init_loop hint NCPU (loop_start env NCPU sz s)).1,
          (init_loop hint NCPU (loop_start env NCPU sz s)).2⟩ := by
  simp only [open_answer, mmap_answer] at ho hm
  have ho' : ¬ (env.sys_open "/dev/ksched" O_RDWR).1 < 0 := not_lt.mpr ho
  simp [ksched_init, ho', hm, loop_start, open_answer, mmap_answer, open_event, mmap_event]

/-- Which idle hints the loop records: `(c, 0)` for every core `c` below `n`. -/
theorem mem_loop_events_hint (v : Nat → Nat) (n c h : Nat) :
    Event.idle_hint c h ∈ (List.range n).flatMap (fun j => core_events j (v j)) ↔
      c < n ∧ h = 0 := by
  simp only [List.mem_flatMap, List.mem_range, core_events, List.mem_cons, List.mem_singleton,
    Event.idle_hint.injEq, List.not_mem_nil, or_false, false_or, reduceCtorEq]
  constructor
  · rintro ⟨j, hj, ⟨rfl, rfl⟩⟩
    exact ⟨hj, rfl⟩
  · rintro ⟨hc, rfl⟩
    exact ⟨c, hc, rfl, rfl⟩

/-- How often the loop records the idle hint `(i, 0)`: once for a core below
`n`. -/
theorem count_loop_events_hint (v : Nat → Nat) (n i : Nat) :
    List.count (Event.idle_hint i 0) ((List.range n).flatMap (fun j => core_events j (v j))) =
      if i < n then 1 else 0 := by
  induction n with
  | zero => simp
  | succ k ih =>
    rw [List.range_succ, List.flatMap_append, List.count_append, ih]
    by_cases hik : i = k
    · subst hik
      simp [core_events, List.flatMap, List.count_cons]
    · have hki : ¬ k = i := fun h => hik h.symm
      have h1 : (i < k + 1) = (i < k) := by
        apply propext
        omega
      simp [core_events, List.flatMap, List.count_cons, hki, h1]

/-- The loop records no system call. -/
theorem loop_events_no_syscall (v : Nat → Nat) (n : Nat) :
    ∀ e ∈ (List.range n).flatMap (fun j => core_events j (v j)),
      e.is_mmap = false ∧ e.is_release = false ∧ e ≠ open_event := by
  intro e he
  simp only [List.mem_flatMap, List.mem_range, core_events, List.mem_cons, List.mem_singleton,
    List.not_mem_nil, or_false] at he
  obtain ⟨j, _, h | h | h⟩ := he <;> subst h <;> simp [Event.is_mmap, Event.is_release, open_event]

/-! ## The claims -/

/-- C1: when open returns a non-negative handle and mmap does not return
MAP_FAILED, `ksched_init` returns 0 and leaves the handle in `ksched_fd` and
the address in `ksched_shm`; conversely, when every failing call leaves
`errno` positive, a return of 0 means that both calls succeeded. -/
theorem ksched_init_returns_zero (env : Env) (hint : IdleHint) (NCPU sz : Nat) (s : KState) :
    (0 ≤ (open_answer env).1 ∧ (mmap_answer env NCPU sz).1 ≠ MAP_FAILED →
      (ksched_init env hint NCPU sz s).ret = 0 ∧
      (ksched_init env hint NCPU sz s).state.ksched_fd = (open_answer env).1 ∧
      (ksched_init env hint NCPU sz s).state.ksched_shm = (mmap_answer env NCPU sz).1) ∧
    (((open_answer env).1 < 0 → 0 < (open_answer env).2) →
      ((mmap_answer env NCPU sz).1 = MAP_FAILED → 0 < (mmap_answer env NCPU sz).2) →
      (ksched_init env hint NCPU sz s).ret = 0 →
      0 ≤ (open_answer env).1 ∧ (mmap_answer env NCPU sz).1 ≠ MAP_FAILED) := by
  constructor
  · rintro ⟨ho, hm⟩
    rw [ksched_init_ok env hint NCPU sz s ho hm]
    obtain ⟨_, hfd, _, hshm, _⟩ := init_loop_frame hint NCPU (loop_start env NCPU sz s)
    exact ⟨rfl, by simpa [loop_start] using hfd, by simpa [loop_start] using hshm⟩
  · intro heo hem hret
    by_cases ho : (open_answer env).1 < 0
    · rw [ksched_init_open_failed env hint NCPU sz s ho] at hret
      have := heo ho
      simp only at hret
      omega
    · have ho' : 0 ≤ (open_answer env).1 := not_lt.mp ho
      refine ⟨ho', ?_⟩
      intro hm
      rw [ksched_init_mmap_failed env hint NCPU sz s ho' hm] at hret
      have := hem hm
      simp only at hret
      omega

/-- Witness of C1: with handle 3 and address 4096 the call returns 0 and
stores both. -/
theorem ksched_init_returns_zero_witness :
    (0 ≤ (open_answer env_ok).1 ∧ (mmap_answer env_ok 4 16).1 ≠ MAP_FAILED) ∧
    (ksched_init env_ok hint_command 4 16 state0).ret = 0 ∧
    (ksched_init env_ok hint_command 4 16 state0).state.ksched_fd = 3 ∧
    (ksched_init env_ok hint_command 4 16 state0).state.ksched_shm = 4096 :=
  ⟨by decide, (ksched_init_returns_zero env_ok hint_command 4 16 state0).1 (by decide)⟩

/-- C2: when open returns a negative value, `ksched_init` returns the
negated `errno` that open left (negative, hence non-zero, when that `errno`
is positive) and its only step is the open call: no mapping is attempted. -/
theorem ksched_init_open_error (env : Env) (hint : IdleHint) (NCPU sz : Nat) (s : KState)
    (h : (open_answer env).1 < 0) :
    (ksched_init env hint NCPU sz s).ret = -(open_answer env).2 ∧
    (0 < (open_answer env).2 →
      (ksched_init env hint NCPU sz s).ret < 0 ∧ (ksched_init env hint NCPU sz s).ret ≠ 0) ∧
    (ksched_init env hint NCPU sz s).trace = [Event.sys_open "/dev/ksched" O_RDWR] ∧
    (∀ e ∈ (ksched_init env hint NCPU sz s).trace, e.is_mmap = false) := by
  rw [ksched_init_open_failed env hint NCPU sz s h]
  refine ⟨rfl, ?_, rfl, ?_⟩
  · intro hpos
    simp only
    omega
  · intro e he
    simp only [List.mem_singleton] at he
    subst he
    rfl

/-- Witness of C2: without the device (ENOENT, 2) the call returns -2 after
the open call alone. -/
theorem ksched_init_open_error_witness :
    (open_answer env_no_device).1 < 0 ∧
    (ksched_init env_no_device hint_command 4 16 state0).ret = -2 ∧
    (ksched_init env_no_device hint_command 4 16 state0).trace =
      [Event.sys_open "/dev/ksched" O_RDWR] :=
  ⟨by decide,
   (ksched_init_open_error env_no_device hint_command 4 16 state0 (by decide)).1,
   (ksched_init_open_error env_no_device hint_command 4 16 state0 (by decide)).2.2.1⟩

/-- C3: when the device opens and mmap returns MAP_FAILED, `ksched_init`
returns the negated `errno` that mmap left, which is negative, hence
non-zero, when that `errno` is positive. -/
theorem ksched_init_mmap_error (env : Env) (hint : IdleHint) (NCPU sz : Nat) (s : KState)
    (ho : 0 ≤ (open_answer env).1) (hm : (mmap_answer env NCPU sz).1 = MAP_FAILED) :
    (ksched_init env hint NCPU sz s).ret = -(mmap_answer env NCPU sz).2 ∧
    (0 < (mmap_answer env NCPU sz).2 →
      (ksched_init env hint NCPU sz s).ret < 0 ∧ (ksched_init env hint NCPU sz s).ret ≠ 0) := by
  rw [ksched_init_mmap_failed env hint NCPU sz s ho hm]
  refine ⟨rfl, ?_⟩
  intro hpos
  simp only
  omega

/-- Witness of C3: when the mapping fails with ENOMEM (12) the call returns
-12. -/
theorem ksched_init_mmap_error_witness :
    (0 ≤ (open_answer env_no_map).1 ∧ (mmap_answer env_no_map 4 16).1 = MAP_FAILED) ∧
    (ksched_init env_no_map hint_command 4 16 state0).ret = -12 :=
  ⟨by decide,
   (ksched_init_mmap_error env_no_map hint_command 4 16 state0 (by decide) (by decide)).1⟩

/-- Counterexample to C6: after a successful init (handle 3, address 4096) a
second call is not rejected. It opens and maps again, returns 0, and
replaces the handle by 4 and the address by 8192. -/
theorem second_init_not_rejected :
    (ksched_init env_ok hint_command 4 16 state0).ret = 0 ∧
    (ksched_init env_ok hint_command 4 16 state0).state.ksched_fd = 3 ∧
    (ksched_init env_ok hint_command 4 16 state0).state.ksched_shm = 4096 ∧
    (ksched_init env_again hint_command 4 16
      (ksched_init env_ok hint_command 4 16 state0).state).ret = 0 ∧
    (ksched_init env_again hint_command 4 16
      (ksched_init env_ok hint_command 4 16 state0).state).state.ksched_fd = 4 ∧
    (ksched_init env_again hint_command 4 16
      (ksched_init env_ok hint_command 4 16 state0).state).state.ksched_shm = 8192 ∧
    (ksched_init env_again hint_command 4 16
      (ksched_init env_ok hint_command 4 16 state0).state).trace.take 2 =
      [Event.sys_open "/dev/ksched" O_RDWR,
       Event.sys_mmap NULL 64 (PROT_READ ||| PROT_WRITE) MAP_SHARED 4 0] := by
  refine ⟨by decide, by decide, by decide, by decide, by decide, by decide, by rfl⟩

/-- C6, amended: `ksched_init` has no check for an earlier init. Called on
the state a successful init left, it opens the device and requests the
mapping again; when both succeed it returns 0 and `ksched_fd` and
`ksched_shm` hold the new handle and the new address. -/
theorem second_init_runs_again (env1 env2 : Env) (hint : IdleHint) (NCPU sz : Nat)
    (s : KState)
    (ho1 : 0 ≤ (open_answer env1).1) (hm1 : (mmap_answer env1 NCPU sz).1 ≠ MAP_FAILED)
    (ho2 : 0 ≤ (open_answer env2).1) (hm2 : (mmap_answer env2 NCPU sz).1 ≠ MAP_FAILED) :
    (ksched_init env1 hint NCPU sz s).ret = 0 ∧
    (ksched_init env2 hint NCPU sz (ksched_init env1 hint NCPU sz s).state).ret = 0 ∧
    (ksched_init env2 hint NCPU sz (ksched_init env1 hint NCPU sz s).state).state.ksched_fd =
      (open_answer env2).1 ∧
    (ksched_init env2 hint NCPU sz (ksched_init env1 hint NCPU sz s).state).state.ksched_shm =
      (mmap_answer env2 NCPU sz).1 ∧
    (ksched_init env2 hint NCPU sz (ksched_init env1 hint NCPU sz s).state).trace.take 2 =
      [open_event, mmap_event env2 NCPU sz] := by
  refine ⟨by rw [ksched_init_ok env1 hint NCPU sz s ho1 hm1], ?_⟩
  generalize (ksched_init env1 hint NCPU sz s).state = s1
  rw [ksched_init_ok env2 hint NCPU sz s1 ho2 hm2]
  obtain ⟨_, hfd, _, hshm, _⟩ := init_loop_frame hint NCPU (loop_start env2 NCPU sz s1)
  refine ⟨rfl, by simpa [loop_start] using hfd, by simpa [loop_start] using hshm, ?_⟩
  simp [init_loop_trace, loop_start]

/-- Witness of C6, amended: the second call with handle 4 and address 8192. -/
theorem second_init_runs_again_witness :
    (0 ≤ (open_answer env_again).1 ∧ (mmap_answer env_again 4 16).1 ≠ MAP_FAILED) ∧
    (ksched_init env_again hint_command 4 16
      (ksched_init env_ok hint_command 4 16 state0).state).ret = 0 ∧
    (ksched_init env_again hint_command 4 16
      (ksched_init env_ok hint_command 4 16 state0).state).state.ksched_fd = 4 :=
  ⟨by decide,
   (second_init_runs_again env_ok env_again hint_command 4 16 state0
      (by decide) (by decide) (by decide) (by decide)).2.1,
   (second_init_runs_again env_ok env_again hint_command 4 16 state0
      (by decide) (by decide) (by decide) (by decide)).2.2.1⟩

/-- Counterexample to C7: the device opens with handle 3 and the mapping
fails with ENOMEM. The call returns -12 after the open and the mmap call
alone: handle 3 is not closed and is still in `ksched_fd`. -/
theorem failed_mmap_keeps_handle :
    (ksched_init env_no_map hint_command 4 16 state0).ret = -12 ∧
    (ksched_init env_no_map hint_command 4 16 state0).trace =
      [Event.sys_open "/dev/ksched" O_RDWR,
       Event.sys_mmap NULL 64 (PROT_READ ||| PROT_WRITE) MAP_SHARED 3 0] ∧
    Event.sys_close 3 ∉ (ksched_init env_no_map hint_command 4 16 state0).trace ∧
    (ksched_init env_no_map hint_command 4 16 state0).state.ksched_fd = 3 := by
  refine ⟨by decide, by rfl, by decide, by decide⟩

/-- C7, amended: when the device opens and the mapping fails, `ksched_init`
returns the negated `errno` without releasing anything: its steps are the
open and the mmap call, none is a close, and `ksched_fd` still holds the
handle that open returned. -/
theorem ksched_init_no_release (env : Env) (hint : IdleHint) (NCPU sz : Nat) (s : KState)
    (ho : 0 ≤ (open_answer env).1) (hm : (mmap_answer env NCPU sz).1 = MAP_FAILED) :
    (ksched_init env hint NCPU sz s).ret = -(mmap_answer env NCPU sz).2 ∧
    (ksched_init env hint NCPU sz s).trace = [open_event, mmap_event env NCPU sz] ∧
    (∀ e ∈ (ksched_init env hint NCPU sz s).trace, e.is_release = false) ∧
    (ksched_init env hint NCPU sz s).state.ksched_fd = (open_answer env).1 ∧
    0 ≤ (ksched_init env hint NCPU sz s).state.ksched_fd := by
  rw [ksched_init_mmap_failed env hint NCPU sz s ho hm]
  refine ⟨rfl, rfl, ?_, rfl, ho⟩
  intro e he
  simp only [List.mem_cons, List.mem_singleton, List.not_mem_nil, or_false] at he
  rcases he with h | h <;> subst h <;> rfl

/-- Witness of C7, amended: the failing mapping of `env_no_map`. -/
theorem ksched_init_no_release_witness :
    (0 ≤ (open_answer env_no_map).1 ∧ (mmap_answer env_no_map 4 16).1 = MAP_FAILED) ∧
    (ksched_init env_no_map hint_command 4 16 state0).state.ksched_fd = 3 :=
  ⟨by decide,
   (ksched_init_no_release env_no_map hint_command 4 16 state0 (by decide) (by decide)).2.2.2.1⟩

/-- C8: when the device opens and `sizeof(struct ksched_shm_cpu) * NCPU`
fits `size_t`, the run of `ksched_init` starts with
`open("/dev/ksched", O_RDWR)` and makes exactly one mapping request, right
after it: `sz * NCPU` bytes at no fixed address, protection read and write,
shared and not private, on the handle that open returned, at offset 0. -/
theorem ksched_init_mapping_request (env : Env) (hint : IdleHint) (NCPU sz : Nat)
    (s : KState) (ho : 0 ≤ (open_answer env).1) (hsz : sz * NCPU < SIZE_MOD) :
    (ksched_init env hint NCPU sz s).trace.take 2 =
      [Event.sys_open "/dev/ksched" O_RDWR,
       Event.sys_mmap NULL (sz * NCPU) (PROT_READ ||| PROT_WRITE) MAP_SHARED
         (open_answer env).1 0] ∧
    (ksched_init env hint NCPU sz s).trace.filter Event.is_mmap =
      [Event.sys_mmap NULL (sz * NCPU) (PROT_READ ||| PROT_WRITE) MAP_SHARED
         (open_answer env).1 0] ∧
    (PROT_READ ||| PROT_WRITE) &&& PROT_READ = PROT_READ ∧
    (PROT_READ ||| PROT_WRITE) &&& PROT_WRITE = PROT_WRITE ∧
    MAP_SHARED &&& MAP_PRIVATE = 0 := by
  have hlen : (sz * NCPU) % SIZE_MOD = sz * NCPU := Nat.mod_eq_of_lt hsz
  refine ⟨?_, ?_, by decide, by decide, by decide⟩
  · by_cases hm : (mmap_answer env NCPU sz).1 = MAP_FAILED
    · rw [ksched_init_mmap_failed env hint NCPU sz s ho hm]
      simp [open_event, mmap_event, hlen]
    · rw [ksched_init_ok env hint NCPU sz s ho hm]
      simp [init_loop_trace, loop_start, open_event, mmap_event, hlen]
  · by_cases hm : (mmap_answer env NCPU sz).1 = MAP_FAILED
    · rw [ksched_init_mmap_failed env hint NCPU sz s ho hm]
      simp [open_event, mmap_event, hlen, Event.is_mmap, List.filter]
    · rw [ksched_init_ok env hint NCPU sz s ho hm]
      have hnone : List.filter Event.is_mmap ((List.range NCPU).flatMap
          (fun i => core_events i (gen_read hint (loop_start env NCPU sz s) i))) = [] := by
        rw [List.filter_eq_nil_iff]
        intro e he
        simp [(loop_events_no_syscall _ NCPU e he).1]
      simp only [init_loop_trace, List.filter_append, hnone, List.append_nil]
      simp [loop_start, open_event, mmap_event, hlen, Event.is_mmap, List.filter]

/-- Witness of C8: four cores with blocks of 16 bytes ask for 64 bytes on
handle 3. -/
theorem ksched_init_mapping_request_witness :
    (0 ≤ (open_answer env_ok).1 ∧ 16 * 4 < SIZE_MOD) ∧
    (ksched_init env_ok hint_command 4 16 state0).trace.filter Event.is_mmap =
      [Event.sys_mmap NULL (16 * 4) (PROT_READ ||| PROT_WRITE) MAP_SHARED
         (open_answer env_ok).1 0] :=
  ⟨by decide,
   (ksched_init_mapping_request env_ok hint_command 4 16 state0 (by decide) (by decide)).2.1⟩

/-- C9: a successful `ksched_init` does, after the open and the mmap call,
for `i = 0, 1, ..., NCPU - 1` in ascending order: load `last_gen` of core
`i`, store it to `ksched_gens[i]`, then call `ksched_idle_hint(i, 0)`. Its
trace is these steps in this order, with the values the rounds read, and the
generation numbers and control blocks it leaves are those that these rounds
produce, whatever the idle hint does. So every core below NCPU gets exactly
one idle hint and no idle hint has another core or another parameter. -/
theorem ksched_init_step_order (env : Env) (hint : IdleHint) (NCPU sz : Nat) (s : KState)
    (ho : 0 ≤ (open_answer env).1) (hm : (mmap_answer env NCPU sz).1 ≠ MAP_FAILED) :
    (ksched_init env hint NCPU sz s).trace =
      [open_event, mmap_event env NCPU sz] ++
        (List.range NCPU).flatMap (fun i =>
          [Event.load_last_gen i (spec_read hint ⟨s.ksched_gens, s.shm⟩ i),
           Event.store_gen i (spec_read hint ⟨s.ksched_gens, s.shm⟩ i),
           Event.idle_hint i 0]) ∧
    (⟨(ksched_init env hint NCPU sz s).state.ksched_gens,
      (ksched_init env hint NCPU sz s).state.shm⟩ : HintState) =
      per_core_effects hint NCPU ⟨s.ksched_gens, s.shm⟩ ∧
    (∀ i, i < NCPU →
      List.count (Event.idle_hint i 0) (ksched_init env hint NCPU sz s).trace = 1) ∧
    (∀ c h, Event.idle_hint c h ∈ (ksched_init env hint NCPU sz s).trace → c < NCPU ∧ h = 0) := by
  rw [ksched_init_ok env hint NCPU sz s ho hm]
  simp only [init_loop_trace, init_loop_effects, gen_read_eq_spec_read]
  simp only [loop_start]
  refine ⟨rfl, trivial, ?_, ?_⟩
  · intro i hi
    rw [List.count_append, count_loop_events_hint, if_pos hi]
    simp [open_event, mmap_event, List.count_cons]
  · intro c h hmem
    rw [List.mem_append] at hmem
    rcases hmem with h1 | h1
    · simp [open_event, mmap_event] at h1
    · exact (mem_loop_events_hint _ NCPU c h).mp h1

/-- Witness of C9: in a run with four cores and the recording idle hint, the
block of core 2 ends with the record 701 (the hint for core 2 ran with
parameter 0 when `ksched_gens[2]` already held the loaded 7), the state left
is the one the spec-worded rounds produce, and core 2 has the idle hint
`(2, 0)` exactly once in the trace. -/
theorem ksched_init_step_order_witness :
    (0 ≤ (open_answer env_ok).1 ∧ (mmap_answer env_ok 4 16).1 ≠ MAP_FAILED) ∧
    (ksched_init env_ok hint_record 4 16 state0).state.ksched_gens 2 = 7 ∧
    (ksched_init env_ok hint_record 4 16 state0).state.shm 2 = ⟨7, 701, 7⟩ ∧
    (⟨(ksched_init env_ok hint_record 4 16 state0).state.ksched_gens,
      (ksched_init env_ok hint_record 4 16 state0).state.shm⟩ : HintState) =
      per_core_effects hint_record 4 ⟨state0.ksched_gens, state0.shm⟩ ∧
    List.count (Event.idle_hint 2 0) (ksched_init env_ok hint_record 4 16 state0).trace = 1 :=
  ⟨by decide, by decide, by decide,
   (ksched_init_step_order env_ok hint_record 4 16 state0 (by decide) (by decide)).2.1,
   (ksched_init_step_order env_ok hint_record 4 16 state0 (by decide) (by decide)).2.2.1 2
     (by decide)⟩

/-- C10: when `ksched_init` fails (open failed, or open succeeded and mmap
failed) it leaves `ksched_gens`, `ksched_shm`, `ksched_count`, `ksched_set`
and the shared region as they were, and its steps are system calls only: no
store to a generation number and no idle hint. -/
theorem ksched_init_error_frame (env : Env) (hint : IdleHint) (NCPU sz : Nat) (s : KState)
    (h : (open_answer env).1 < 0 ∨
      (0 ≤ (open_answer env).1 ∧ (mmap_answer env NCPU sz).1 = MAP_FAILED)) :
    (ksched_init env hint NCPU sz s).state.ksched_gens = s.ksched_gens ∧
    (ksched_init env hint NCPU sz s).state.ksched_shm = s.ksched_shm ∧
    (ksched_init env hint NCPU sz s).state.ksched_count = s.ksched_count ∧
    (ksched_init env hint NCPU sz s).state.ksched_set = s.ksched_set ∧
    (ksched_init env hint NCPU sz s).state.shm = s.shm ∧
    (∀ c v, Event.store_gen c v ∉ (ksched_init env hint NCPU sz s).trace) ∧
    (∀ c x, Event.idle_hint c x ∉ (ksched_init env hint NCPU sz s).trace) := by
  rcases h with h | ⟨ho, hm⟩
  · rw [ksched_init_open_failed env hint NCPU sz s h]
    refine ⟨rfl, rfl, rfl, rfl, rfl, ?_, ?_⟩ <;> intro c v <;> simp [open_event]
  · rw [ksched_init_mmap_failed env hint NCPU sz s ho hm]
    refine ⟨rfl, rfl, rfl, rfl, rfl, ?_, ?_⟩ <;> intro c v <;> simp [open_event, mmap_event]

/-- Witness of C10: after the failing mapping of `env_no_map` the mapping
pointer is still null and the generation number of core 1 is still 0. -/
theorem ksched_init_error_frame_witness :
    ((open_answer env_no_map).1 < 0 ∨
      (0 ≤ (open_answer env_no_map).1 ∧ (mmap_answer env_no_map 4 16).1 = MAP_FAILED)) ∧
    (ksched_init env_no_map hint_command 4 16 state0).state.ksched_shm = NULL ∧
    (ksched_init env_no_map hint_command 4 16 state0).state.ksched_gens 1 = 0 :=
  ⟨by decide,
   (ksched_init_error_frame env_no_map hint_command 4 16 state0 (by decide)).2.1,
   congrFun (ksched_init_error_frame env_no_map hint_command 4 16 state0 (by decide)).1 1⟩

end Ksched
